import Mathlib

/-!
# Verification of the lox-lang semantic core (resolver, environments, interpreter)

This file is a shallow embedding, in Lean 4, of the semantic engine of the
`lox-lang` tree-walking interpreter: the static resolver (`src/resolver.rs`),
the environment chain (`src/environment.rs`), the value model
(`src/types.rs`, `src/errors.rs`), the callable protocol (`src/callable.rs`)
and the evaluator (`src/interpreter.rs`).

Modelling conventions, fixed once here:

* Rust `f64` number payloads are modeled as `Int`.  None of the properties
  verified below depends on floating-point rounding, division, or NaN; where
  a statement would be sensitive to NaN (partial orders on numbers) this is
  noted at the statement.
* `Rc<RefCell<Env>>` aliasing is modeled by a heap: a list of frames addressed
  by index (`Nat`).  Cloning an `Rc` is copying the index; mutating through a
  `RefCell` is updating the heap at that index.  The Rust code never mutates
  an `enclosing` pointer after construction, so reachable heaps are acyclic.
* `HashMap<String, _>` is modeled as an association list whose `insert`
  overwrites; only `lookup`/`contains`/`insert` are observed by the code.
* Rust panics (`unwrap`, `expect`) are modeled explicitly: in the resolver as
  a sticky `panicMsg` field, in `Env::ancestor` as the `Except.error` side of
  an `Except String` result — deliberately a different type from the
  user-level `RuntimeError`.
* Interpreter recursion is not structural (loops, calls), so every evaluator
  takes explicit fuel and returns a `diverged` marker when it runs out; the
  Rust functions are the `fuel → ∞` behavior, and every concrete run below
  uses enough fuel for the result to be fuel-independent.
* `println!` output is collected in an `output` trace field.
-/

namespace Lox

/-- The list of indices visited by the Rust iterator `a..b`
(empty whenever `b ≤ a`, as for the loop header of `Resolver::resolve_local`). -/
def rustRange (a b : Nat) : List Nat := List.range' a (b - a)

/-- Source `TokenType` from `src/types.rs`.  Lean keywords are suffixed with `Kw`. -/
inductive TokenType where
  | leftParen | rightParen | leftBrace | rightBrace | comma | dot | minus
  | plus | semicolon | slash | star
  | bang | bangEqual | equal | equalEqual | greater | greaterEqual
  | less | lessEqual
  | identifier | loxString | number
  | andKw | classKw | elseKw | falseKw | funcKw | forKw | ifKw | noneKw
  | orKw | printKw | returnKw | superKw | thisKw | trueKw | varKw | whileKw
  | eof
  deriving DecidableEq, Repr

/-- Source `Token` from `src/types.rs`.  The `literal : Object` field is omitted:
it is read only by the lexer/parser, which are outside the embedded core
(the interpreter reads literals from `Expr::Literal` nodes instead). -/
structure Token where
  tokenType : TokenType
  lexeme : String
  line : Nat
  deriving DecidableEq, Repr

mutual

/-- Source `Object` from `src/types.rs` (`f64` payload modeled as `Int`).
`Object::Callable(Rc<dyn Callable>)` holds either the `ClockFn` builtin or a
`LoxFunction`. -/
inductive Object where
  | string (s : String)
  | number (n : Int)
  | bool (b : Bool)
  | callable (c : LoxCallable)
  | none

/-- The two implementors of the `Callable` trait (`src/callable.rs`):
`ClockFn` and `LoxFunction { declaration : Stmt, closure : Rc<RefCell<Env>> }`.
The closure is a heap address. -/
inductive LoxCallable where
  | clockFn
  | loxFunction (declaration : Stmt) (closure : Nat)

/-- Source `Expr` from `src/types.rs`.  `Variable` is rendered `var`, `Super`/`This`
as `superE`/`thisE` (Lean keywords). -/
inductive Expr where
  | assign (name : Token) (value : Expr)
  | binary (left : Expr) (operator : Token) (right : Expr)
  | call (callee : Expr) (paren : Token) (arguments : List Expr)
  | get (object : Expr) (name : Token)
  | grouping (expression : Expr)
  | literal (value : Object)
  | logical (left : Expr) (operator : Token) (right : Expr)
  | set (object : Expr) (name : Token) (value : Expr)
  | superE (keyword : Token) (method : Token)
  | thisE (keyword : Token)
  | unary (operator : Token) (right : Expr)
  | var (name : Token)

/-- Source `Stmt` from `src/types.rs`. -/
inductive Stmt where
  | block (statements : List Stmt)
  | classDecl (name : Token) (superclass : Expr) (methods : List Stmt)
  | expression (expression : Expr)
  | function (name : Token) (params : List Token) (body : List Stmt)
  | ifStmt (condition : Expr) (thenBranch : Stmt) (elseBranch : Option Stmt)
  | print (expression : Expr)
  | ret (keyword : Token) (value : Option Expr)
  | varDecl (name : Token) (initializer : Option Expr)
  | whileStmt (condition : Expr) (body : Stmt)

end

/-! ## Association-list model of `HashMap<String, α>` -/

/-- Source `HashMap::insert` / `try_insert`-after-success: overwrite the key. -/
def mapInsert {α : Type} (m : List (String × α)) (k : String) (v : α) :
    List (String × α) :=
  (k, v) :: m.filter (fun p => p.1 ≠ k)

/-- Source `HashMap::contains_key`. -/
def mapContains {α : Type} (m : List (String × α)) (k : String) : Bool :=
  (m.lookup k).isSome

/-! ## Resolver (`src/resolver.rs`) -/

/-- Source `FunctionType` from `src/resolver.rs`. -/
inductive FunctionType where
  | none
  | function
  deriving DecidableEq, Repr

/-- The observable effect of one `LoxError::report` call in the resolver
(`println!` of the error).  `genericError` is `LoxError::Error`. -/
inductive ResolverReport where
  | genericError
  | semanticPassError (line : Nat) (lexeme : String) (msg : String)
  deriving DecidableEq, Repr

/-- The state threaded through `Resolver`: the scope stack (`Vec` order —
the last element is the innermost scope), the binding table the calls to
`Interpreter::resolve` would populate (keyed here by lexeme: `resolve_local`
only ever passes `Expr::Variable { name }` nodes), the log of reported
errors, and the message of the first Rust panic, if one happened (a panic
aborts the process, so every operation below is a no-op once `panicMsg` is
set). -/
structure ResolverState where
  scopes : List (List (String × Bool))
  bindings : List (String × Nat)
  reports : List ResolverReport
  panicMsg : Option String
  currentFunction : FunctionType
  deriving Repr

/-- Fresh resolver state, as built by `Resolver::new`. -/
def ResolverState.init : ResolverState :=
  { scopes := [], bindings := [], reports := [], panicMsg := Option.none,
    currentFunction := .none }

def ResolverState.report (st : ResolverState) (r : ResolverReport) :
    ResolverState :=
  { st with reports := st.reports ++ [r] }

def ResolverState.setPanic (st : ResolverState) (msg : String) :
    ResolverState :=
  { st with panicMsg := some msg }

/-- Panic message of `Result::unwrap` on an `Err` (from `try_insert`). -/
def unwrapErrMsg : String := "called Result::unwrap on an Err value"

/-- Panic message of `Option::unwrap` on `None`. -/
def unwrapNoneMsg : String := "called Option::unwrap on a None value"

/-- Replace the last (innermost) scope, the target of `scopes.peek_mut()`. -/
def updateLastScope (scopes : List (List (String × Bool)))
    (scope : List (String × Bool)) : List (List (String × Bool)) :=
  scopes.dropLast ++ [scope]

/-- Source `Resolver::declare`: if there is a current scope, report `LoxError::Error`
when the name is already present, then `try_insert(name, false).unwrap()` —
which succeeds for a fresh name and panics (Err unwrapped) for a duplicate. -/
def Resolver.declare (st : ResolverState) (name : Token) : ResolverState :=
  if st.panicMsg.isSome then st else
  match st.scopes.getLast? with
  | Option.none => st
  | some scope =>
      if mapContains scope name.lexeme then
        (st.report .genericError).setPanic unwrapErrMsg
      else
        let scope' := mapInsert scope name.lexeme false
        { st with scopes := updateLastScope st.scopes scope' }

/-- Source `Resolver::define`: if there is a current scope, report the
"Already a variable with this name in this scope." error when the name is
present, then `try_insert(name, false).unwrap()` followed by
`try_insert(name, true).unwrap()`.  When the name is present the first
`try_insert` returns `Err` and the `unwrap` panics; when it is absent the
first `try_insert` inserts `false` and the second then finds the key occupied
and panics.  Either way the flag is never set to `true`. -/
def Resolver.define (st : ResolverState) (name : Token) : ResolverState :=
  if st.panicMsg.isSome then st else
  match st.scopes.getLast? with
  | Option.none => st
  | some scope =>
      if mapContains scope name.lexeme then
        (st.report (.semanticPassError name.line name.lexeme
          "Already a variable with this name in this scope.")).setPanic
          unwrapErrMsg
      else
        let scope' := mapInsert scope name.lexeme false
        ({ st with scopes := updateLastScope st.scopes scope' }).setPanic
          unwrapErrMsg

/-- Source `Resolver::resolve_local`: `for i in self.scopes.len() - 1..0 { … }`,
recording `scopes.len() - 1 - i` for the first `i` whose scope contains the
name.  The iteration order and bounds are exactly the Rust range. -/
def Resolver.resolveLocal (st : ResolverState) (name : Token) :
    ResolverState :=
  if st.panicMsg.isSome then st else
  match (rustRange (st.scopes.length - 1) 0).find?
      (fun i => mapContains (st.scopes.getD i []) name.lexeme) with
  | some i =>
      { st with bindings :=
          st.bindings ++ [(name.lexeme, st.scopes.length - 1 - i)] }
  | Option.none => st

/-- Source `Resolver::begin_scope`. -/
def Resolver.beginScope (st : ResolverState) : ResolverState :=
  if st.panicMsg.isSome then st else { st with scopes := st.scopes ++ [[]] }

/-- Source `Resolver::end_scope`. -/
def Resolver.endScope (st : ResolverState) : ResolverState :=
  if st.panicMsg.isSome then st else { st with scopes := st.scopes.dropLast }

/-- Source `Resolver::visit_var_expr`: when a current scope exists, the let-chain
evaluates `last.get(&name.lexeme).unwrap()` — panicking if the innermost
scope does not contain the name — and reports `LoxError::Error` when the
flag is `false`; then `resolve_local` runs. -/
def Resolver.visitVarExpr (st : ResolverState) (name : Token) :
    ResolverState :=
  if st.panicMsg.isSome then st else
  let st' :=
    match st.scopes.getLast? with
    | some last =>
        match last.lookup name.lexeme with
        | Option.none => st.setPanic unwrapNoneMsg
        | some flag => if !flag then st.report .genericError else st
    | Option.none => st
  Resolver.resolveLocal st' name

mutual

/-- Source `Resolver::resolve_expr` (i.e. `expression.accept(resolver)`), with fuel.
The `Get`/`Set`/`Super`/`This` arms fall into `accept`'s catch-all, which
visits a `None` literal — a no-op. -/
def resolveExpr : Nat → ResolverState → Expr → ResolverState
  | 0, st, _ => st
  | Nat.succ fuel, st, e =>
    if st.panicMsg.isSome then st else
    match e with
    | .binary l _ r => resolveExpr fuel (resolveExpr fuel st l) r
    | .grouping inner => resolveExpr fuel st inner
    | .literal _ => st
    | .unary _ r => resolveExpr fuel st r
    | .var name => Resolver.visitVarExpr st name
    | .assign name value =>
        Resolver.resolveLocal (resolveExpr fuel st value) name
    | .logical l _ r => resolveExpr fuel (resolveExpr fuel st l) r
    | .call callee _ args => resolveExprs fuel (resolveExpr fuel st callee) args
    | .get _ _ => st
    | .set _ _ _ => st
    | .superE _ _ => st
    | .thisE _ => st

/-- The `arguments.iter().for_each(resolve_expr)` loop of `visit_call_expr`. -/
def resolveExprs : Nat → ResolverState → List Expr → ResolverState
  | 0, st, _ => st
  | Nat.succ fuel, st, [] =>
      let _ := fuel
      st
  | Nat.succ fuel, st, e :: es => resolveExprs fuel (resolveExpr fuel st e) es

/-- Source `Resolver::resolve_stmt` (i.e. `statement.accept(resolver)`), with fuel.
The `Class` arm falls into `accept`'s catch-all, which visits an expression
statement holding a `None` literal. -/
def resolveStmt : Nat → ResolverState → Stmt → ResolverState
  | 0, st, _ => st
  | Nat.succ fuel, st, s =>
    if st.panicMsg.isSome then st else
    match s with
    | .expression e => resolveExpr fuel st e
    | .print e => resolveExpr fuel st e
    | .varDecl name init =>
        let st := Resolver.declare st name
        let st := match init with
          | some i => resolveExpr fuel st i
          | Option.none => st
        Resolver.define st name
    | .block stmts =>
        Resolver.endScope (resolveStmts fuel (Resolver.beginScope st) stmts)
    | .ifStmt c t e =>
        let st := resolveStmt fuel (resolveExpr fuel st c) t
        match e with
        | some eb => resolveStmt fuel st eb
        | Option.none => st
    | .whileStmt c b => resolveStmt fuel (resolveExpr fuel st c) b
    | .function name params body =>
        let st := Resolver.declare st name
        let st := Resolver.define st name
        resolveFunction fuel st params body .function
    | .ret keyword value =>
        let st := match st.currentFunction with
          | .none => st.report (.semanticPassError keyword.line keyword.lexeme
              "Can't return from top-level code.")
          | .function => st
        match value with
        | some v => resolveExpr fuel st v
        | Option.none => st
    | .classDecl _ _ _ => st

/-- Source `Resolver::resolve_stmts`. -/
def resolveStmts : Nat → ResolverState → List Stmt → ResolverState
  | 0, st, _ => st
  | Nat.succ fuel, st, [] =>
      let _ := fuel
      st
  | Nat.succ fuel, st, s :: ss => resolveStmts fuel (resolveStmt fuel st s) ss

/-- Source `Resolver::resolve_function`: save and elevate `current_function`, open a
scope, declare+define each parameter, resolve the body, close the scope,
restore `current_function`. -/
def resolveFunction : Nat → ResolverState → List Token → List Stmt →
    FunctionType → ResolverState
  | 0, st, _, _, _ => st
  | Nat.succ fuel, st, params, body, ftype =>
    if st.panicMsg.isSome then st else
    let enclosing := st.currentFunction
    let st := { st with currentFunction := ftype }
    let st := Resolver.beginScope st
    let st := params.foldl
      (fun acc p => Resolver.define (Resolver.declare acc p) p) st
    let st := Resolver.endScope (resolveStmts fuel st body)
    { st with currentFunction := enclosing }

end

/-! ## Environments (`src/environment.rs`)

An `Env` owns a name→value map and an optional enclosing frame.  The Rust
`Rc<RefCell<Env>>` is a heap address here; the heap is the list of all frames
ever created, and `List.set` is mutation through the `RefCell`. -/

structure Env where
  values : List (String × Object)
  enclosing : Option Nat

abbrev Heap := List Env

/-- Dereference a frame address.  The default is never hit on heaps the
interpreter builds (every stored address points into the heap). -/
def getFrame (heap : Heap) (a : Nat) : Env :=
  heap.getD a { values := [], enclosing := Option.none }

/-- Source `Env::define` on the frame at address `a`: unconditional insert/overwrite. -/
def heapDefine (heap : Heap) (a : Nat) (name : String) (v : Object) : Heap :=
  heap.set a { getFrame heap a with
    values := mapInsert (getFrame heap a).values name v }

/-- Source `EnvError` from `src/errors.rs`. -/
inductive EnvError where
  | valueNotFound (line : Nat) (lexeme : String) (msg : String)

/-- Source `Env::get`: look in the current frame, else recurse into the enclosing
frame, else fail.  `depth` is a model artifact bounding the recursion; the
Rust chain is acyclic, so every reachable chain is fully traversed whenever
`depth` exceeds its length (call sites pass the heap size). -/
def envGet : Nat → Heap → Nat → Token → Except EnvError Object
  | 0, _, _, name =>
      .error (.valueNotFound name.line name.lexeme
        ("no value found for var " ++ name.lexeme))
  | Nat.succ depth, heap, a, name =>
    match (getFrame heap a).values.lookup name.lexeme with
    | some v => .ok v
    | Option.none =>
      match (getFrame heap a).enclosing with
      | some p => envGet depth heap p name
      | Option.none =>
          .error (.valueNotFound name.line name.lexeme
            ("no value found for var " ++ name.lexeme))

/-- Source `Env::assign`: mutate the first frame along the chain that already
defines the name; never creates a binding. -/
def envAssign : Nat → Heap → Nat → Token → Object → Except EnvError Heap
  | 0, _, _, name, _ =>
      .error (.valueNotFound name.line name.lexeme "undefined variable")
  | Nat.succ depth, heap, a, name, v =>
    if mapContains (getFrame heap a).values name.lexeme then
      .ok (heapDefine heap a name.lexeme v)
    else
      match (getFrame heap a).enclosing with
      | some p => envAssign depth heap p name v
      | Option.none =>
          .error (.valueNotFound name.line name.lexeme "undefined variable")

/-- The message of the `expect` in `Env::ancestor`. -/
def ancestorMsg : String := "No enclosing environment found at this distance"

/-- The loop body of `Env::ancestor`, iterated once per step of
`for _ in 0..distance`.  An `Except.error` is the Rust panic of
`.expect(…)` — a programmer fault, not a `RuntimeError`. -/
def ancestorGo : Nat → Heap → Nat → Except String Nat
  | 0, _, a => .ok a
  | Nat.succ k, heap, a =>
    match (getFrame heap a).enclosing with
    | some p => ancestorGo k heap p
    | Option.none => .error ancestorMsg

/-- Source `Env::ancestor(env, distance)`.  `distance : i32`; the Rust range
`0..distance` iterates `distance.toNat` times (none for negatives). -/
def ancestor (heap : Heap) (a : Nat) (distance : Int) : Except String Nat :=
  ancestorGo distance.toNat heap a

/-- Source `Env::get_at`: walk to the ancestor, then a direct map lookup in that
frame only (the inner `Option` is the Rust return type). -/
def getAt (heap : Heap) (a : Nat) (distance : Int) (name : String) :
    Except String (Option Object) :=
  (ancestor heap a distance).map (fun f => (getFrame heap f).values.lookup name)

/-- Source `Env::assign_at`: walk to the ancestor, then insert in that frame only. -/
def assignAt (heap : Heap) (a : Nat) (distance : Int) (name : Token)
    (v : Object) : Except String Heap :=
  (ancestor heap a distance).map (fun f => heapDefine heap f name.lexeme v)

/-- Specification-side chain walker: the frame exactly `k` parent links from
`a`, or `none` when the chain is shorter.  Used to characterize `ancestor`. -/
def walk : Heap → Nat → Nat → Option Nat
  | _, a, 0 => some a
  | heap, a, Nat.succ k =>
    match (getFrame heap a).enclosing with
    | some p => walk heap p k
    | Option.none => Option.none

/-! ## Value operations (`src/types.rs`) -/

/-- Source `Object::to_bool` (isTruthy): `false` and `nil` are falsy. -/
def Object.toBool : Object → Bool
  | .bool b => b
  | .none => false
  | _ => true

def Object.toNum : Object → Option Int
  | .number n => some n
  | _ => Option.none

def Object.toStr : Object → Option String
  | .string s => some s
  | _ => Option.none

def Object.isNum : Object → Bool
  | .number _ => true
  | _ => false

def Object.isStr : Object → Bool
  | .string _ => true
  | _ => false

/-- Source `PartialEq for Object` (isEqual): same-variant value equality, every
cross-variant pair (and every `Callable` pair) unequal. -/
def objEq : Object → Object → Bool
  | .number a, .number b => a == b
  | .string a, .string b => a == b
  | .bool a, .bool b => a == b
  | .none, .none => true
  | _, _ => false

/-- Source `PartialOrd for Object`: match arms only for `Number`–`Number`,
`String`–`String` and `Bool`–`Bool` pairs; every other pair is `None`.
Caveat of the `Int` payload model: on Rust `f64`, NaN operands give `None`
even on a `Number`–`Number` pair, which `Int` cannot represent.  The
theorems below therefore use only the `None` side (pairs without an arm are
`None`), which holds whatever the number payloads are, and never assert
that a `Number`–`Number` pair is ordered. -/
def partialCmpO : Object → Object → Option Ordering
  | .number a, .number b => some (compare a b)
  | .string a, .string b => some (compare a b)
  | .bool a, .bool b => some (compare a b)
  | _, _ => Option.none

/-- Rust `<` derived from `partial_cmp`: true iff `Some(Less)`. -/
def objLt (a b : Object) : Bool := partialCmpO a b == some .lt

/-- Rust `<=`: true iff `Some(Less | Equal)`. -/
def objLe (a b : Object) : Bool :=
  match partialCmpO a b with
  | some .lt => true
  | some .eq => true
  | _ => false

/-- Rust `>`: true iff `Some(Greater)`. -/
def objGt (a b : Object) : Bool := partialCmpO a b == some .gt

/-- Rust `>=`: true iff `Some(Greater | Equal)`. -/
def objGe (a b : Object) : Bool :=
  match partialCmpO a b with
  | some .gt => true
  | some .eq => true
  | _ => false

/-- Source `LoxFunction::arity` and `ClockFn::arity`. -/
def LoxCallable.arity : LoxCallable → Nat
  | .clockFn => 0
  | .loxFunction (.function _ params _) _ => params.length
  | .loxFunction _ _ => 0

/-- Source `fmt::Display` for callables: `"<fn>"` for the builtin, `"<fn> name"`
for a function (the fallback string reproduces the source's typo). -/
def LoxCallable.display : LoxCallable → String
  | .clockFn => "<fn>"
  | .loxFunction (.function name _ _) _ => "<fn> " ++ name.lexeme
  | .loxFunction _ _ => "function not callabe"

/-- Source `fmt::Display for Object`.  (`f64` prints integral values without a
fraction, matching `Int` printing on the integers this model carries.) -/
def Object.display : Object → String
  | .string s => s
  | .number n => toString n
  | .bool b => toString b
  | .callable c => c.display
  | .none => "none"

/-! ## Runtime errors (`src/errors.rs`) -/

inductive RuntimeError where
  | invalidType (line : Nat) (lexeme : String) (msg : String)
  | numberStringAddition (line : Nat) (lexeme : String) (msg : String)
  | valueNotFound (line : Nat) (lexeme : String) (msg : String)
  | variableUninitialized (line : Nat) (lexeme : String) (msg : String)
  | invalidFunctionCall (line : Nat) (lexeme : String) (msg : String)
  | returnCalled (val : Option Object)
  | invalidNumArgs (msg : String)

/-- Source `red_text!` from `src/macros.rs`. -/
def redText (s : String) : String := "\x1b[31m" ++ s ++ "\x1b[0m"

/-- Source `error_indent!` from `src/macros.rs`. -/
def errorIndent : String := "       "

/-- Source `fmt::Display for EnvError` (the string `visit_var_expr` embeds via
`e.to_string()`). -/
def EnvError.display : EnvError → String
  | .valueNotFound line lexeme msg =>
      redText "error" ++ ": " ++ "EnvError::ValueNotFound" ++ "\n" ++
        errorIndent ++ "[Line " ++ toString line ++ " Error in '" ++ lexeme ++
        "']: " ++ msg

/-- Source `Object::as_callable`: the runtime "not callable" type check. -/
def Object.asCallable : Object → Except RuntimeError LoxCallable
  | .callable c => .ok c
  | _ => .error (.invalidType 1 "<no info on line>" "not callable")

/-! ## Interpreter (`src/interpreter.rs`) -/

/-- Source `Interpreter::check_num_operand`. -/
def checkNumOperand (operand : Object) (operator : Token) :
    Except RuntimeError Unit :=
  match operand with
  | .number _ => .ok ()
  | _ => .error (.invalidType operator.line operator.lexeme
      "operand must be a number")

/-- Source `Interpreter::check_num_operands`. -/
def checkNumOperands (left right : Object) (operator : Token) :
    Except RuntimeError Unit :=
  match left, right with
  | .number _, .number _ => .ok ()
  | _, _ => .error (.invalidType operator.line operator.lexeme
      "operand must be a number")

/-- The pure tail of `visit_unary_expr`, given the evaluated operand.
Unmatched token types fall into the source's `_ => Ok(Object::None)`. -/
def unaryOp (operator : Token) (right : Object) : Except RuntimeError Object :=
  match operator.tokenType with
  | .minus =>
    match checkNumOperand right operator with
    | .ok _ => .ok (.number (-(right.toNum.getD 0)))
    | .error e => .error e
  | .bang => .ok (.bool (!right.toBool))
  | _ => .ok Object.none

/-- The pure tail of `visit_binary_expr`, given both evaluated operands.
The ordering arms are `Ok(Object::Bool(left OP right))` with no type check;
`to_num().unwrap()` after a passed check is total, rendered `getD 0`.
(`f64` `/` is modeled as `Int` division; no claim below touches division.) -/
def binaryOp (operator : Token) (left right : Object) :
    Except RuntimeError Object :=
  match operator.tokenType with
  | .greater => .ok (.bool (objGt left right))
  | .greaterEqual => .ok (.bool (objGe left right))
  | .less => .ok (.bool (objLt left right))
  | .lessEqual => .ok (.bool (objLe left right))
  | .bangEqual => .ok (.bool (!objEq left right))
  | .equalEqual => .ok (.bool (objEq left right))
  | .minus =>
    match checkNumOperands left right operator with
    | .ok _ => .ok (.number (left.toNum.getD 0 - right.toNum.getD 0))
    | .error e => .error e
  | .plus =>
    if left.isStr && right.isStr then
      .ok (.string (left.toStr.getD "" ++ right.toStr.getD ""))
    else if left.isNum && right.isNum then
      .ok (.number (left.toNum.getD 0 + right.toNum.getD 0))
    else
      .error (.numberStringAddition 0 ""
        "can only add variables of the same type")
  | .slash =>
    match checkNumOperands left right operator with
    | .ok _ => .ok (.number (left.toNum.getD 0 / right.toNum.getD 0))
    | .error e => .error e
  | .star =>
    match checkNumOperands left right operator with
    | .ok _ => .ok (.number (left.toNum.getD 0 * right.toNum.getD 0))
    | .error e => .error e
  | _ => .ok Object.none

/-- The interpreter's state: the frame heap, the address of the globals
frame, the current-environment cursor, and the `println!` trace. -/
structure InterpState where
  heap : Heap
  globals : Nat
  env : Nat
  output : List String

/-- Source `Interpreter::new`: one global frame pre-populated with `clock`;
both `globals` and the cursor point at it. -/
def InterpState.new : InterpState :=
  let globalsFrame : Env :=
    { values := [("clock", Object.callable .clockFn)],
      enclosing := Option.none }
  { heap := [globalsFrame], globals := 0, env := 0, output := [] }

/-- Outcome of running a piece of code: normal completion, an
`Err(RuntimeError)` (which carries the state, since Rust `?` propagation
leaves all performed effects in place), or out of fuel (the run would
continue past the modeled bound; the Rust code has no such case). -/
inductive Res (α : Type) where
  | ok (st : InterpState) (val : α)
  | err (st : InterpState) (e : RuntimeError)
  | diverged

/-- Source `Env::define` on the interpreter's current frame. -/
def defineCur (st : InterpState) (name : String) (v : Object) : InterpState :=
  { st with heap := heapDefine st.heap st.env name v }

/-- The `for (param, arg) in params.iter().zip(arguments.iter())` binding
loop of `LoxFunction::call`, run on the fresh frame's empty map. -/
def bindParams (params : List Token) (args : List Object) :
    List (String × Object) :=
  (params.zip args).foldl (fun m pa => mapInsert m pa.1.lexeme pa.2) []

/-- The environment construction of `LoxFunction::call`: one fresh frame
whose parent is the function's captured `closure` (not the caller's cursor),
holding the bound parameters.  Returns the grown state and the fresh
frame's address. -/
def callSetup (st : InterpState) (params : List Token) (args : List Object)
    (closure : Nat) : InterpState × Nat :=
  ({ st with heap := st.heap ++
      [{ values := bindParams params args, enclosing := some closure }] },
    st.heap.length)

mutual

/-- Source `expression.accept(interpreter)` — expression evaluation, with fuel.
`Get`/`Set`/`Super`/`This` fall into `accept`'s catch-all, which visits a
`None` literal. -/
def evalExpr : Nat → InterpState → Expr → Res Object
  | 0, _, _ => .diverged
  | Nat.succ fuel, st, e =>
    match e with
    | .literal v => .ok st v
    | .grouping inner => evalExpr fuel st inner
    | .unary op r =>
      match evalExpr fuel st r with
      | .ok s rv =>
        match unaryOp op rv with
        | .ok v => .ok s v
        | .error er => .err s er
      | .err s er => .err s er
      | .diverged => .diverged
    | .binary l op r =>
      match evalExpr fuel st l with
      | .ok s lv =>
        match evalExpr fuel s r with
        | .ok s' rv =>
          match binaryOp op lv rv with
          | .ok v => .ok s' v
          | .error er => .err s' er
        | .err s' er => .err s' er
        | .diverged => .diverged
      | .err s er => .err s er
      | .diverged => .diverged
    | .var name =>
      match envGet st.heap.length st.heap st.env name with
      | .ok Object.none =>
          .err st (.variableUninitialized name.line name.lexeme
            "variable uninitialized")
      | .ok v => .ok st v
      | .error er =>
          .err st (.valueNotFound name.line name.lexeme er.display)
    | .assign name value =>
      match evalExpr fuel st value with
      | .ok s v =>
        match envAssign s.heap.length s.heap s.env name v with
        | .ok heap' => .ok { s with heap := heap' } v
        | .error _ =>
            .err s (.valueNotFound name.line name.lexeme "undefined variable")
      | .err s er => .err s er
      | .diverged => .diverged
    | .logical l op r =>
      match evalExpr fuel st l with
      | .ok s lv =>
        match op.tokenType with
        | .orKw => if lv.toBool then .ok s lv else evalExpr fuel s r
        | _ => if !lv.toBool then .ok s lv else evalExpr fuel s r
      | .err s er => .err s er
      | .diverged => .diverged
    | .call callee _ args =>
      match evalExpr fuel st callee with
      | .ok s cv =>
        match evalArgs fuel s args with
        | .ok s' argVals =>
          match cv.asCallable with
          | .error er => .err s' er
          | .ok f =>
            if argVals.length ≠ f.arity then
              .err s' (.invalidNumArgs ("expected " ++ toString f.arity ++
                " arguments, but got " ++ toString argVals.length))
            else callCallable fuel s' f argVals
        | .err s' er => .err s' er
        | .diverged => .diverged
      | .err s er => .err s er
      | .diverged => .diverged
    | .get _ _ => .ok st Object.none
    | .set _ _ _ => .ok st Object.none
    | .superE _ _ => .ok st Object.none
    | .thisE _ => .ok st Object.none

/-- The arguments loop of `visit_call_expr` (left-to-right, `?` on each). -/
def evalArgs : Nat → InterpState → List Expr → Res (List Object)
  | 0, _, _ => .diverged
  | Nat.succ _, st, [] => .ok st []
  | Nat.succ fuel, st, a :: rest =>
    match evalExpr fuel st a with
    | .ok s v =>
      match evalArgs fuel s rest with
      | .ok s' vs => .ok s' (v :: vs)
      | .err s' er => .err s' er
      | .diverged => .diverged
    | .err s er => .err s er
    | .diverged => .diverged

/-- Source `Callable::call`.  `ClockFn` returns the wall clock — unmodelable, so a
fixed `Number 0`; no claim depends on its value.  `LoxFunction::call` builds
the frame via `callSetup`, runs the body through `execute_block`, converts an
escaping `ReturnCalled` into the call's result, and otherwise yields `Nil`;
a non-`Function` declaration is the source's `InvalidFunctionCall` branch. -/
def callCallable : Nat → InterpState → LoxCallable → List Object → Res Object
  | 0, _, _, _ => .diverged
  | Nat.succ _, st, .clockFn, _ => .ok st (Object.number 0)
  | Nat.succ fuel, st, .loxFunction decl closure, args =>
    match decl with
    | .function _ params body =>
      match executeBlock fuel (callSetup st params args closure).1 body
          (callSetup st params args closure).2 with
      | .ok s _ => .ok s Object.none
      | .err s (.returnCalled (some v)) => .ok s v
      | .err s (.returnCalled Option.none) => .ok s Object.none
      | .err s er => .err s er
      | .diverged => .diverged
    | _ => .err st (.invalidFunctionCall 0 "no lexeme"
        "call is not callable/function does not exist")

/-- Source `Interpreter::execute_block`: save the cursor, point it at `envAddr`,
run the statements, restore the cursor unconditionally (on `Ok` and on
`Err`), and hand back the inner result. -/
def executeBlock : Nat → InterpState → List Stmt → Nat → Res Unit
  | 0, _, _, _ => .diverged
  | Nat.succ fuel, st, stmts, envAddr =>
    match execStmts fuel { st with env := envAddr } stmts with
    | .ok s _ => .ok { s with env := st.env } ()
    | .err s er => .err { s with env := st.env } er
    | .diverged => .diverged

/-- The statement loop inside `execute_block` (`?` on each statement). -/
def execStmts : Nat → InterpState → List Stmt → Res Unit
  | 0, _, _ => .diverged
  | Nat.succ _, st, [] => .ok st ()
  | Nat.succ fuel, st, s :: ss =>
    match execStmt fuel st s with
    | .ok s' _ => execStmts fuel s' ss
    | .err s' er => .err s' er
    | .diverged => .diverged

/-- Source `statement.accept(interpreter)` — statement execution, with fuel.
`Class` falls into `accept`'s catch-all (an expression statement holding a
`None` literal, i.e. a no-op). -/
def execStmt : Nat → InterpState → Stmt → Res Unit
  | 0, _, _ => .diverged
  | Nat.succ fuel, st, s =>
    match s with
    | .expression e =>
      match evalExpr fuel st e with
      | .ok s' _ => .ok s' ()
      | .err s' er => .err s' er
      | .diverged => .diverged
    | .print e =>
      match evalExpr fuel st e with
      | .ok s' v => .ok { s' with output := s'.output ++ [v.display] } ()
      | .err s' er => .err s' er
      | .diverged => .diverged
    | .varDecl name init =>
      match init with
      | Option.none => .ok (defineCur st name.lexeme Object.none) ()
      | some i =>
        match evalExpr fuel st i with
        | .ok s' v => .ok (defineCur s' name.lexeme v) ()
        | .err s' er => .err s' er
        | .diverged => .diverged
    | .block stmts =>
      executeBlock fuel
        { st with heap := st.heap ++
            [{ values := [], enclosing := some st.env }] }
        stmts st.heap.length
    | .ifStmt c t e =>
      match evalExpr fuel st c with
      | .ok s' cv =>
        if cv.toBool then execStmt fuel s' t
        else
          match e with
          | some eb => execStmt fuel s' eb
          | Option.none => .ok s' ()
      | .err s' er => .err s' er
      | .diverged => .diverged
    | .whileStmt c b =>
      match evalExpr fuel st c with
      | .ok s' cv =>
        if cv.toBool then
          match execStmt fuel s' b with
          | .ok s'' _ => execStmt fuel s'' (.whileStmt c b)
          | .err s'' er => .err s'' er
          | .diverged => .diverged
        else .ok s' ()
      | .err s' er => .err s' er
      | .diverged => .diverged
    | .function name params body =>
      .ok (defineCur st name.lexeme
        (Object.callable (.loxFunction (.function name params body) st.env)))
        ()
    | .ret _ value =>
      match value with
      | Option.none => .err st (.returnCalled Option.none)
      | some v =>
        match evalExpr fuel st v with
        | .ok s' rv => .err s' (.returnCalled (some rv))
        | .err s' er => .err s' er
        | .diverged => .diverged
    | .classDecl _ _ _ => .ok st ()

end

/-! ## Helper definitions for concrete programs and discriminators -/

/-- A token literal for concrete test programs (line number 1 throughout). -/
def tk (tt : TokenType) (lx : String) : Token := ⟨tt, lx, 1⟩

/-- Is a value the `Nil` sentinel (`Object::None`)? -/
def Object.isNoneObj : Object → Bool
  | .none => true
  | _ => false

/-- Is an error the `as_callable` "not callable" error? -/
def RuntimeError.isNotCallable : RuntimeError → Bool
  | .invalidType _ _ m => m == "not callable"
  | _ => false

/-- Is a result an escaping `ReturnCalled` signal? -/
def Res.isReturnErr {α : Type} : Res α → Bool
  | .err _ (.returnCalled _) => true
  | _ => false

/-- The pairs for which the source's `PartialOrd for Object` has an arm:
both numbers, both strings, or both booleans. -/
def orderedPair : Object → Object → Bool
  | .number _, .number _ => true
  | .string _, .string _ => true
  | .bool _, .bool _ => true
  | _, _ => false

/-- Read a name out of the globals frame of a finished run. -/
def readGlobal (r : Res Unit) (n : String) : Option Object :=
  match r with
  | .ok s _ => (getFrame s.heap 0).values.lookup n
  | _ => Option.none

/-! ## Helper lemmas -/

theorem lookup_mapInsert {α : Type} (m : List (String × α)) (k : String)
    (v : α) : (mapInsert m k v).lookup k = some v := by
  simp [mapInsert, List.lookup]

theorem getFrame_heapDefine_self (heap : Heap) (a : Nat) (n : String)
    (v : Object) (h : a < heap.length) :
    getFrame (heapDefine heap a n v) a =
      { getFrame heap a with
        values := mapInsert (getFrame heap a).values n v } := by
  unfold heapDefine
  unfold getFrame
  simp [List.getD_eq_getElem?_getD, List.getElem?_set_eq_of_lt _ h]

theorem getFrame_append_length (heap : Heap) (x : Env) :
    getFrame (heap ++ [x]) heap.length = x := by
  simp [getFrame, List.getD_eq_getElem?_getD,
    List.getElem?_append_right (Nat.le_refl _)]

/-- The `ancestor` loop computes exactly the `k`-step parent walk, and its
`expect` panics exactly when the chain is shorter than `k`. -/
theorem ancestorGo_eq_walk (k : Nat) (heap : Heap) (a : Nat) :
    ancestorGo k heap a =
      (match walk heap a k with
       | some f => .ok f
       | Option.none => .error ancestorMsg) := by
  induction k generalizing a with
  | zero => rfl
  | succ k ih =>
    unfold ancestorGo walk
    cases henc : (getFrame heap a).enclosing with
    | none => rfl
    | some p => simpa using ih p

/-! ## Claims -/

/-- Claim C1, code bug in `Resolver::resolve_local`.  The claim: a
variable/assignment reference searches the scope stack innermost→outermost
and records the distance of the first scope containing the name, recording
nothing only when no scope contains it.  The code's loop header is
`for i in self.scopes.len() - 1..0`, an always-empty Rust range, so the
body is unreachable and `resolve_local` is the identity: nothing is ever
recorded, whatever the scope stack holds. -/
theorem c1_resolve_local_records_nothing (st : ResolverState) (name : Token) :
    Resolver.resolveLocal st name = st := by
  unfold Resolver.resolveLocal
  simp [rustRange]

/-- The resolver run on `{ var a = a; }`. -/
def c3SelfRef : Stmt :=
  .block [.varDecl (tk .identifier "a") (some (.var (tk .identifier "a")))]

/-- The resolver run on the perfectly legal `{ var a = 1; }`. -/
def c3Legal : Stmt :=
  .block [.varDecl (tk .identifier "a") (some (.literal (.number 1)))]

/-- Claim C3, code bug in `Resolver::define`.  The declare→resolve→define
ordering is in `visit_var_stmt`, and for `{ var a = a; }` the initializer's
`a` is indeed reported (`LoxError::Error`, the first report below) and is
not resolved to any outer scope (the binding table stays empty).  But the
claim's final step — "defines the name (flagged ready)" — never happens:
`define` re-checks `contains_key` (always true after `declare`), reports a
spurious "Already a variable with this name in this scope." error, and then
panics unwrapping `try_insert` on the occupied key.  Even the legal
`{ var a = 1; }` gets the spurious report and the panic. -/
theorem c3_define_panics_instead_of_flagging_ready :
    ((resolveStmt 10 ResolverState.init c3SelfRef).reports =
        [.genericError, .semanticPassError 1 "a"
          "Already a variable with this name in this scope."]
      ∧ (resolveStmt 10 ResolverState.init c3SelfRef).bindings = []
      ∧ (resolveStmt 10 ResolverState.init c3SelfRef).panicMsg =
          some unwrapErrMsg)
    ∧ ((resolveStmt 10 ResolverState.init c3Legal).reports =
        [.semanticPassError 1 "a"
          "Already a variable with this name in this scope."]
      ∧ (resolveStmt 10 ResolverState.init c3Legal).panicMsg =
          some unwrapErrMsg) :=
  ⟨⟨rfl, rfl, rfl⟩, rfl, rfl⟩

/-- Claim C9, confirmed.  `get_at`/`assign_at` walk exactly `distance`
parent links and then read/insert in that frame alone (no name search on
the way); when the chain is shorter than `distance`, both end in the
`ancestor` `expect` panic (`Except.error`, a programmer fault distinct in
type from the user-level `RuntimeError`), with the source's message. -/
theorem c9_get_at_assign_at (heap : Heap) (a : Nat) (d : Int) (name : Token)
    (v : Object) :
    (∀ f, walk heap a d.toNat = some f →
       getAt heap a d name.lexeme =
         .ok ((getFrame heap f).values.lookup name.lexeme)
       ∧ assignAt heap a d name v = .ok (heapDefine heap f name.lexeme v))
    ∧ (walk heap a d.toNat = Option.none →
       getAt heap a d name.lexeme = .error ancestorMsg
       ∧ assignAt heap a d name v = .error ancestorMsg) := by
  constructor
  · intro f hf
    constructor <;>
      simp [getAt, assignAt, ancestor, ancestorGo_eq_walk, hf, Except.map]
  · intro hf
    constructor <;>
      simp [getAt, assignAt, ancestor, ancestorGo_eq_walk, hf, Except.map]

/-- A two-frame chain: globals-like frame `0` (no parent, `x = 10`) and a
child frame `1` (`x = 20`). -/
def c9Heap : Heap :=
  [{ values := [("x", .number 10)], enclosing := Option.none },
   { values := [("x", .number 20)], enclosing := some 0 }]

/-- Witness for C9: from frame 1, distance 1 reads frame 0's `x` directly
(even though frame 1 also has an `x`), and distance 5 exceeds the chain and
panics with the `expect` message. -/
theorem c9_get_at_assign_at_witness :
    (walk c9Heap 1 (1 : Int).toNat = some 0
      ∧ getAt c9Heap 1 1 "x" = .ok (some (.number 10)))
    ∧ (walk c9Heap 1 (5 : Int).toNat = Option.none
      ∧ getAt c9Heap 1 5 "x" = .error ancestorMsg) :=
  ⟨⟨rfl, ((c9_get_at_assign_at c9Heap 1 1 (tk .identifier "x")
      (.number 0)).1 0 rfl).1⟩,
   ⟨rfl, ((c9_get_at_assign_at c9Heap 1 5 (tk .identifier "x")
      (.number 0)).2 rfl).1⟩⟩

/-- Claim C8 counterexample.  The claim says applying an ordering operator to
a `Number`–`Bool` pair is a runtime type error; the code has no type check
on the ordering arms and evaluates `1 < true` to `Bool(false)`
(`partial_cmp` is `None`, and Rust's `<` on `None` is `false`). -/
theorem c8_ordering_counterexample :
    evalExpr 5 InterpState.new
      (.binary (.literal (.number 1)) (tk .less "<") (.literal (.bool true)))
      = .ok InterpState.new (.bool false)
    ∧ binaryOp (tk .less "<") (.number 1) (.bool true) = .ok (.bool false) :=
  ⟨rfl, rfl⟩

/-- Claim C8, corrected.  Amended claim: applying an ordering operator is
never a runtime error — each application evaluates to the `Bool` derived
from `Object`'s `partial_cmp`; and on every pair outside the
`Number`–`Number`, `String`–`String` and `Bool`–`Bool` match arms (the
claim also wrongly excluded `Bool`–`Bool`), `partial_cmp` is `None` and all
four operators evaluate to `false`.  Nothing is asserted about when the
arm pairs themselves are ordered: on Rust `f64`, a NaN operand makes a
`Number`–`Number` pair compare as `None` too, outside the `Int` model. -/
theorem c8_ordering_never_errors (lx : String) (ln : Nat) (l r : Object) :
    binaryOp ⟨.less, lx, ln⟩ l r = .ok (.bool (objLt l r))
    ∧ binaryOp ⟨.lessEqual, lx, ln⟩ l r = .ok (.bool (objLe l r))
    ∧ binaryOp ⟨.greater, lx, ln⟩ l r = .ok (.bool (objGt l r))
    ∧ binaryOp ⟨.greaterEqual, lx, ln⟩ l r = .ok (.bool (objGe l r))
    ∧ (orderedPair l r = false →
        partialCmpO l r = Option.none
        ∧ objLt l r = false ∧ objLe l r = false
        ∧ objGt l r = false ∧ objGe l r = false) := by
  refine ⟨rfl, rfl, rfl, rfl, ?_⟩
  intro h
  cases l <;> cases r <;>
    simp_all [orderedPair, objLt, objLe, objGt, objGe, partialCmpO]

/-- Witness for C8: at the `Number`–`Bool` pair, the no-arm hypothesis
holds, `partial_cmp` is `None`, and the operators come out `false`. -/
theorem c8_ordering_never_errors_witness :
    orderedPair (.number 1) (.bool true) = false
    ∧ partialCmpO (.number 1) (.bool true) = Option.none
    ∧ objLt (.number 1) (.bool true) = false
    ∧ objGe (.number 1) (.bool true) = false :=
  ⟨rfl,
   ((c8_ordering_never_errors "<" 1 (.number 1) (.bool true)).2.2.2.2
     rfl).1,
   ((c8_ordering_never_errors "<" 1 (.number 1) (.bool true)).2.2.2.2
     rfl).2.1,
   ((c8_ordering_never_errors "<" 1 (.number 1) (.bool true)).2.2.2.2
     rfl).2.2.2.2⟩

/-- A state with `x = 1` in the global frame and a shadowing `x = 2` in the
current (non-global) frame — and, as everywhere in this interpreter, no
binding table in existence. -/
def c2GlobalFrame : Env :=
  { values := [("clock", .callable .clockFn), ("x", .number 1)],
    enclosing := Option.none }

/-- The shadowing current frame of `c2State`. -/
def c2LocalFrame : Env :=
  { values := [("x", .number 2)], enclosing := some 0 }

def c2State : InterpState :=
  { heap := [c2GlobalFrame, c2LocalFrame], globals := 0, env := 1,
    output := [] }

/-- Claim C2 counterexample.  The claim says that with no binding-table entry
for a reference the interpreter looks the name up directly in the global
frame.  `Interpreter` has no binding table at all (`visit_var_expr` calls
`Env::get` on the current environment), so reading `x` returns the
shadowing local `2`, not the global `1` the claim's direct-global lookup
would produce. -/
theorem c2_no_binding_table_counterexample :
    evalExpr 5 c2State (.var (tk .identifier "x")) = .ok c2State (.number 2)
    ∧ (getFrame c2State.heap c2State.globals).values.lookup "x" =
        some (.number 1)
    ∧ objEq (.number 2) (.number 1) = false :=
  ⟨rfl, rfl, rfl⟩

/-- Claim C2, corrected.  Amended claim: every variable-reference
evaluation is `Env::get`'s linear search of the environment chain starting
at the current frame — innermost frame first, stepping to the enclosing
frame on a miss, failing only when the chain (whose root is the global
frame) is exhausted; no binding table or `get_at` is consulted, and a found
`Nil` sentinel is reported as the uninitialized-variable error. -/
theorem c2_var_reference_is_linear_chain_search (fuel : Nat)
    (st : InterpState) (name : Token) (depth : Nat) (heap : Heap)
    (a p : Nat) (v : Object) :
    (evalExpr (fuel + 1) st (.var name) =
      (match envGet st.heap.length st.heap st.env name with
       | .ok Object.none =>
           .err st (.variableUninitialized name.line name.lexeme
             "variable uninitialized")
       | .ok v => .ok st v
       | .error er =>
           .err st (.valueNotFound name.line name.lexeme er.display)))
    ∧ ((getFrame heap a).values.lookup name.lexeme = some v →
        envGet (depth + 1) heap a name = .ok v)
    ∧ ((getFrame heap a).values.lookup name.lexeme = Option.none →
        (getFrame heap a).enclosing = some p →
        envGet (depth + 1) heap a name = envGet depth heap p name)
    ∧ ((getFrame heap a).values.lookup name.lexeme = Option.none →
        (getFrame heap a).enclosing = Option.none →
        envGet (depth + 1) heap a name =
          .error (.valueNotFound name.line name.lexeme
            ("no value found for var " ++ name.lexeme))) := by
  refine ⟨rfl, ?_, ?_, ?_⟩
  · intro h
    simp [envGet, h]
  · intro h1 h2
    simp [envGet, h1, h2]
  · intro h1 h2
    simp [envGet, h1, h2]

/-- Witness for C2: in `c2State`'s chain, the innermost frame's hit wins,
a miss steps to the parent, and a miss at the rootless frame fails. -/
theorem c2_var_reference_is_linear_chain_search_witness :
    envGet 2 c2State.heap 1 (tk .identifier "x") = .ok (.number 2)
    ∧ envGet 2 c2State.heap 1 (tk .identifier "clock") =
        envGet 1 c2State.heap 0 (tk .identifier "clock")
    ∧ envGet 1 c2State.heap 0 (tk .identifier "y") =
        .error (.valueNotFound 1 "y" ("no value found for var " ++ "y")) :=
  ⟨(c2_var_reference_is_linear_chain_search 0 InterpState.new
      (tk .identifier "x") 1 c2State.heap 1 0 (.number 2)).2.1 rfl,
   (c2_var_reference_is_linear_chain_search 0 InterpState.new
      (tk .identifier "clock") 1 c2State.heap 1 0 (.number 0)).2.2.1 rfl rfl,
   (c2_var_reference_is_linear_chain_search 0 InterpState.new
      (tk .identifier "y") 0 c2State.heap 0 0 (.number 0)).2.2.2 rfl rfl⟩

/-- Claim C10, confirmed.  `var x = nil;` and `var x;` produce identical
executions (`visit_var_stmt` starts from the `Object::None` sentinel and an
explicit `nil` initializer evaluates to the same sentinel); a chain lookup
that finds the sentinel is reported as the uninitialized-variable runtime
error; and a variable-reference evaluation can never produce the value
`nil` (`visit_var_expr` maps the sentinel to that error). -/
theorem c10_nil_initializer_indistinguishable (fuel : Nat)
    (st : InterpState) (name : Token) :
    execStmt (fuel + 2) st (.varDecl name (some (.literal Object.none)))
      = execStmt (fuel + 2) st (.varDecl name Option.none)
    ∧ (∀ s v, evalExpr fuel st (.var name) = .ok s v → v.isNoneObj = false)
    ∧ (envGet st.heap.length st.heap st.env name = .ok Object.none →
        evalExpr (fuel + 1) st (.var name) =
          .err st (.variableUninitialized name.line name.lexeme
            "variable uninitialized")) := by
  refine ⟨rfl, ?_, ?_⟩
  · intro s v h
    match fuel with
    | 0 => exact absurd h (by simp [evalExpr])
    | Nat.succ fuel =>
      simp only [evalExpr] at h
      split at h
      · exact absurd h (by simp)
      · cases h
        cases v <;> simp_all [Object.isNoneObj]
      · exact absurd h (by simp)
  · intro h
    simp [evalExpr, h]

/-- Witness for C10: reading `x = 7` yields a non-`nil` value, and reading
an `x` declared `nil` raises the uninitialized-variable error. -/
theorem c10_nil_initializer_indistinguishable_witness :
    (Object.number 7).isNoneObj = false
    ∧ evalExpr 1 (defineCur InterpState.new "x" Object.none)
        (.var (tk .identifier "x")) =
      .err (defineCur InterpState.new "x" Object.none)
        (.variableUninitialized 1 "x" "variable uninitialized") :=
  ⟨(c10_nil_initializer_indistinguishable 1
      (defineCur InterpState.new "x" (.number 7)) (tk .identifier "x")).2.1
      (defineCur InterpState.new "x" (.number 7)) (.number 7) rfl,
   (c10_nil_initializer_indistinguishable 0
      (defineCur InterpState.new "x" Object.none) (tk .identifier "x")).2.2
      rfl⟩

/-- Claim C7, confirmed.  `execute_block` saves the cursor, runs the
statements against the given frame, and restores the cursor on every exit
path — normal completion and error/early-exit (`?`, including the
`ReturnCalled` channel) alike; and `visit_block_stmt` hands it a fresh
child frame of the current environment. -/
theorem c7_block_swap_restore (fuel : Nat) (st : InterpState)
    (stmts : List Stmt) (envAddr : Nat) :
    (∀ s u, executeBlock fuel st stmts envAddr = .ok s u → s.env = st.env)
    ∧ (∀ s e, executeBlock fuel st stmts envAddr = .err s e → s.env = st.env)
    ∧ execStmt (fuel + 1) st (.block stmts) =
        executeBlock fuel
          { st with heap := st.heap ++
              [{ values := [], enclosing := some st.env }] }
          stmts st.heap.length := by
  refine ⟨?_, ?_, rfl⟩
  · intro s u h
    match fuel with
    | 0 => exact absurd h (by simp [executeBlock])
    | Nat.succ fuel =>
      simp only [executeBlock] at h
      split at h
      · cases h; rfl
      · cases h
      · cases h
  · intro s e h
    match fuel with
    | 0 => exact absurd h (by simp [executeBlock])
    | Nat.succ fuel =>
      simp only [executeBlock] at h
      split at h
      · cases h
      · cases h; rfl
      · cases h

/-- The state after `{ var x = 7; }` from a grown two-frame state: the
declaration lands in the block frame 1 and the cursor returns to 0. -/
def c7Start : InterpState :=
  { InterpState.new with heap := InterpState.new.heap ++
      [{ values := [], enclosing := some 0 }] }

def c7Final : InterpState :=
  { defineCur { c7Start with env := 1 } "x" (.number 7) with
      env := c7Start.env }

/-- Witness for C7: a concrete block execution completes normally with the
cursor restored, and an early-exit (`return` signal) path also restores it. -/
theorem c7_block_swap_restore_witness :
    (executeBlock 5 c7Start
        [.varDecl (tk .identifier "x") (some (.literal (.number 7)))] 1 =
      .ok c7Final () ∧ c7Final.env = c7Start.env)
    ∧ (executeBlock 5 c7Start [.ret (tk .returnKw "return") Option.none] 1 =
      .err c7Start (.returnCalled Option.none)
      ∧ c7Start.env = c7Start.env) :=
  ⟨⟨rfl, (c7_block_swap_restore 5 c7Start
      [.varDecl (tk .identifier "x") (some (.literal (.number 7)))] 1).1
      c7Final () rfl⟩,
   ⟨rfl, (c7_block_swap_restore 5 c7Start
      [.ret (tk .returnKw "return") Option.none] 1).2.1
      c7Start (.returnCalled Option.none) rfl⟩⟩

/-- Claim C4, confirmed.  `LoxFunction::call` runs the body through
`execute_block` on the fresh frame from `callSetup` and: a body that
completes without a return yields `Nil`; an escaping `ReturnCalled(v)`
yields `v` (or `Nil` when the return carried no value); and the return
signal never escapes the call itself — the call's own result is never a
`ReturnCalled` error, whatever the body did. -/
theorem c4_return_stops_at_call_boundary (fuel : Nat) (st : InterpState)
    (nm : Token) (params : List Token) (body : List Stmt) (closure : Nat)
    (args : List Object) :
    (∀ s u, executeBlock fuel (callSetup st params args closure).1 body
        (callSetup st params args closure).2 = .ok s u →
      callCallable (fuel + 1) st
        (.loxFunction (.function nm params body) closure) args =
        .ok s Object.none)
    ∧ (∀ s v, executeBlock fuel (callSetup st params args closure).1 body
        (callSetup st params args closure).2 =
          .err s (.returnCalled (some v)) →
      callCallable (fuel + 1) st
        (.loxFunction (.function nm params body) closure) args = .ok s v)
    ∧ (∀ s, executeBlock fuel (callSetup st params args closure).1 body
        (callSetup st params args closure).2 =
          .err s (.returnCalled Option.none) →
      callCallable (fuel + 1) st
        (.loxFunction (.function nm params body) closure) args =
        .ok s Object.none)
    ∧ (callCallable (fuel + 1) st
        (.loxFunction (.function nm params body) closure) args).isReturnErr
        = false := by
  refine ⟨?_, ?_, ?_, ?_⟩
  · intro s u h
    simp [callCallable, h]
  · intro s v h
    simp [callCallable, h]
  · intro s h
    simp [callCallable, h]
  · simp only [callCallable]
    split
    · rfl
    · rfl
    · rfl
    · next _ er hsome hnone heq =>
      clear heq
      cases er
      case returnCalled val =>
        cases val
        case none => exact absurd rfl hnone
        case some v => exact absurd rfl (hsome v)
      all_goals rfl
    · rfl

/-- A user function whose body is `return 7;`. -/
def c4Fn : LoxCallable :=
  .loxFunction
    (.function (tk .identifier "seven") []
      [.ret (tk .returnKw "return") (some (.literal (.number 7)))]) 0

/-- Witness for C4: calling `c4Fn` from the fresh state — the body's
escaping `ReturnCalled(7)` becomes the call's `Ok(7)`. -/
theorem c4_return_stops_at_call_boundary_witness :
    callCallable 6 InterpState.new c4Fn [] =
      .ok (callSetup InterpState.new [] [] 0).1 (.number 7) :=
  (c4_return_stops_at_call_boundary 5 InterpState.new
      (tk .identifier "seven") []
      [.ret (tk .returnKw "return") (some (.literal (.number 7)))] 0 []).2.1
    (callSetup InterpState.new [] [] 0).1 (.number 7) rfl

/-- A call whose callee is the non-callable literal `3` and whose single
argument is a read of the undefined name `qqq`. -/
def c5NotCallableCall : Expr :=
  .call (.literal (.number 3)) (tk .rightParen ")")
    [.var (tk .identifier "qqq")]

/-- Claim C5 counterexample.  The claim orders the callable check before the
argument evaluation; `visit_call_expr` evaluates the arguments first, so
`3(qqq)` fails with the argument's `ValueNotFound` error, not the
`as_callable` "not callable" error the claim's order would produce. -/
theorem c5_args_evaluated_before_callable_check :
    evalExpr 5 InterpState.new c5NotCallableCall =
      .err InterpState.new (.valueNotFound 1 "qqq"
        (EnvError.display (.valueNotFound 1 "qqq"
          ("no value found for var " ++ "qqq"))))
    ∧ (RuntimeError.valueNotFound 1 "qqq"
        (EnvError.display (.valueNotFound 1 "qqq"
          ("no value found for var " ++ "qqq")))).isNotCallable = false :=
  ⟨rfl, rfl⟩

/-- Claim C5, corrected.  Amended claim: a call evaluates the callee, then
the arguments left-to-right, and only then checks that the callee is
callable (`as_callable`'s `InvalidType` "not callable" error), then that
the argument count equals the declared arity (`InvalidNumArgs` naming the
expected and actual counts), and only then invokes. -/
theorem c5_call_evaluation_order (fuel : Nat) (st : InterpState) (c : Expr)
    (paren : Token) (args : List Expr) :
    (∀ s v s' e, evalExpr fuel st c = .ok s v →
      evalArgs fuel s args = .err s' e →
      evalExpr (fuel + 1) st (.call c paren args) = .err s' e)
    ∧ (∀ s v s' vs e, evalExpr fuel st c = .ok s v →
      evalArgs fuel s args = .ok s' vs → v.asCallable = .error e →
      evalExpr (fuel + 1) st (.call c paren args) = .err s' e)
    ∧ (∀ s v s' vs f, evalExpr fuel st c = .ok s v →
      evalArgs fuel s args = .ok s' vs → v.asCallable = .ok f →
      vs.length ≠ f.arity →
      evalExpr (fuel + 1) st (.call c paren args) =
        .err s' (.invalidNumArgs ("expected " ++ toString f.arity ++
          " arguments, but got " ++ toString vs.length)))
    ∧ (∀ s v s' vs f, evalExpr fuel st c = .ok s v →
      evalArgs fuel s args = .ok s' vs → v.asCallable = .ok f →
      vs.length = f.arity →
      evalExpr (fuel + 1) st (.call c paren args) =
        callCallable fuel s' f vs) := by
  refine ⟨?_, ?_, ?_, ?_⟩
  · intro s v s' e h1 h2
    simp [evalExpr, h1, h2]
  · intro s v s' vs e h1 h2 h3
    simp [evalExpr, h1, h2, h3]
  · intro s v s' vs f h1 h2 h3 h4
    simp [evalExpr, h1, h2, h3, h4]
  · intro s v s' vs f h1 h2 h3 h4
    simp [evalExpr, h1, h2, h3, h4]

/-- Witness for C5: the `3(qqq)` call surfaces the argument's error even
though the callee is not callable, and `clock(1)` surfaces the arity error
naming expected (0) and actual (1) counts. -/
theorem c5_call_evaluation_order_witness :
    evalExpr 5 InterpState.new c5NotCallableCall =
      .err InterpState.new (.valueNotFound 1 "qqq"
        (EnvError.display (.valueNotFound 1 "qqq"
          ("no value found for var " ++ "qqq"))))
    ∧ evalExpr 5 InterpState.new
        (.call (.var (tk .identifier "clock")) (tk .rightParen ")")
          [.literal (.number 1)]) =
      .err InterpState.new (.invalidNumArgs
        ("expected " ++ toString (LoxCallable.clockFn.arity) ++
          " arguments, but got " ++
          toString [Object.number 1].length)) :=
  ⟨(c5_call_evaluation_order 4 InterpState.new (.literal (.number 3))
      (tk .rightParen ")") [.var (tk .identifier "qqq")]).1
      InterpState.new (.number 3) InterpState.new
      (.valueNotFound 1 "qqq"
        (EnvError.display (.valueNotFound 1 "qqq"
          ("no value found for var " ++ "qqq")))) rfl rfl,
   (c5_call_evaluation_order 4 InterpState.new
      (.var (tk .identifier "clock")) (tk .rightParen ")")
      [.literal (.number 1)]).2.2.1
      InterpState.new (.callable .clockFn) InterpState.new
      [.number 1] .clockFn rfl rfl rfl (by decide)⟩

/-- The counter/closure test program:
`fun counter() { var i = 0; fun inc() { i = i + 1; return i; } return inc; }`
followed by `var c = counter(); var a = c(); var b = c();`. -/
def c6Program : List Stmt :=
  [.function (tk .identifier "counter") []
    [.varDecl (tk .identifier "i") (some (.literal (.number 0))),
     .function (tk .identifier "inc") []
       [.expression (.assign (tk .identifier "i")
          (.binary (.var (tk .identifier "i")) (tk .plus "+")
            (.literal (.number 1)))),
        .ret (tk .returnKw "return") (some (.var (tk .identifier "i")))],
     .ret (tk .returnKw "return") (some (.var (tk .identifier "inc")))],
   .varDecl (tk .identifier "c")
     (some (.call (.var (tk .identifier "counter")) (tk .rightParen ")") [])),
   .varDecl (tk .identifier "a")
     (some (.call (.var (tk .identifier "c")) (tk .rightParen ")") [])),
   .varDecl (tk .identifier "b")
     (some (.call (.var (tk .identifier "c")) (tk .rightParen ")") []))]

/-- Claim C6, confirmed.  A function declaration captures the environment
current at the point of definition (`closure := st.env`, readable back out
of the frame it was bound in); a call builds one fresh frame whose parent
is that captured environment (not the caller's cursor); and running the
counter program shows increment persistence across two calls of the
returned closure (`a = 1`, `b = 2`): capture is by reference to the
defining frame, not a value snapshot. -/
theorem c6_closure_captures_defining_env (fuel : Nat) (st : InterpState)
    (name : Token) (params : List Token) (body : List Stmt) (closure : Nat)
    (args : List Object) :
    execStmt (fuel + 1) st (.function name params body) =
      .ok (defineCur st name.lexeme
        (.callable (.loxFunction (.function name params body) st.env))) ()
    ∧ (st.env < st.heap.length →
        (getFrame (defineCur st name.lexeme
            (.callable (.loxFunction (.function name params body)
              st.env))).heap st.env).values.lookup name.lexeme =
          some (.callable (.loxFunction (.function name params body)
            st.env)))
    ∧ (callSetup st params args closure).2 = st.heap.length
    ∧ getFrame (callSetup st params args closure).1.heap
        (callSetup st params args closure).2 =
      { values := bindParams params args, enclosing := some closure }
    ∧ readGlobal (execStmts 30 InterpState.new c6Program) "a" =
        some (.number 1)
    ∧ readGlobal (execStmts 30 InterpState.new c6Program) "b" =
        some (.number 2) := by
  refine ⟨rfl, ?_, rfl, ?_, rfl, rfl⟩
  · intro h
    unfold defineCur
    rw [getFrame_heapDefine_self _ _ _ _ h]
    exact lookup_mapInsert _ _ _
  · exact getFrame_append_length _ _

/-- Witness for C6: in the fresh state the just-declared function is bound
in the current (global) frame with that same frame as its closure. -/
theorem c6_closure_captures_defining_env_witness :
    (getFrame (defineCur InterpState.new (tk .identifier "f").lexeme
        (.callable (.loxFunction
          (.function (tk .identifier "f") [] [])
          InterpState.new.env))).heap
      InterpState.new.env).values.lookup (tk .identifier "f").lexeme =
      some (.callable (.loxFunction (.function (tk .identifier "f") [] [])
        InterpState.new.env)) :=
  (c6_closure_captures_defining_env 0 InterpState.new (tk .identifier "f")
    [] [] 0 []).2.1 (by decide)

end Lox
